import Mathlib

/-!
Verification of the Boost.Singularity lifecycle state machine.

The repository implements the "singularity" pattern (at most one caller-managed
instance of a type T) in several mechanically repeated variants.  Two semantic
families cover all of them:

* `Singularity.Cpp11` embeds the C++11 variadic variant
  (`singularity<T, M>` with `create` / `create_enable_get` (alias
  `create_global`) / `destroy` / `get` (alias `get_global`)): per-type state is
  a `bool get_enabled` plus a `std::unique_ptr<T> ptr`, both keyed only by T.
  The partially unrolled documentation variant shares these semantics.

* `Singularity.Hpp` embeds the preprocessor-generated variant
  (`singularity.hpp` / `singularity_explicit.hpp`): per-type state is a shared
  `bool singularity_state<T>::created` plus a per-(T, threading-policy) raw
  pointer `singularity_instance<T, M>::instance_ptr`, so `destroy` through a
  policy other than the creating one fails with
  `singularity_destroy_on_incorrect_threading`.

Constructor-argument forwarding (the generated overload families) is modelled
by passing the fully constructed T value to `create`: every generated overload
has the identical guard/check/store/return body and differs only in how the
constructor arguments are spelled.  The mutex policies make each operation
atomic, so concurrent executions are modelled as sequences of whole operations.
-/

namespace Singularity

/-- Error taxonomy of the library, one constructor per exception type:
`singularity_already_created`, `singularity_already_destroyed`,
`singularity_not_created`, `singularity_no_global_access` (the cpp11 variant's
AccessNotEnabled), and `singularity_destroy_on_incorrect_threading` (only in
the `singularity.hpp` / `singularity_explicit.hpp` family). -/
inductive SingErr where
  | already_created
  | already_destroyed
  | not_created
  | no_global_access
  | destroy_on_incorrect_threading
deriving DecidableEq

namespace Cpp11

/-- Per-type static state of the cpp11 variant:
`detail::singularity_instance<T>` holds `static bool get_enabled` and
`static std::unique_ptr<T> ptr` (src/unnamed/part_002, lines 86-93).  The
unique pointer is modelled as `Option T`. -/
structure SState (T : Type) where
  get_enabled : Bool
  ptr : Option T
deriving DecidableEq

/-- Zero-initialized state before any operation: `get_enabled = false`,
`ptr(0)` (src/unnamed/part_002, lines 92-93). -/
def init (T : Type) : SState T := ⟨false, none⟩

/-- `singularity::create(args...)` (src/unnamed/part_002, lines 101-112):
`verify_not_created()` throws `singularity_already_created` when the pointer
is non-null, before any mutation; otherwise `get_enabled = false`,
`ptr.reset(new T(args...))`, and the new instance is returned by reference.
The constructed value is the argument `x`. -/
def create {T : Type} (x : T) (s : SState T) : Except SingErr (T × SState T) :=
  if s.ptr.isSome then .error .already_created
  else .ok (x, ⟨false, some x⟩)

/-- `singularity::create_enable_get(args...)` (src/unnamed/part_002, lines
114-125; named `create_global` in the second copy): identical to `create`
except that `get_enabled` is set to `true`. -/
def create_enable_get {T : Type} (x : T) (s : SState T) :
    Except SingErr (T × SState T) :=
  if s.ptr.isSome then .error .already_created
  else .ok (x, ⟨true, some x⟩)

/-- `singularity::destroy()` (src/unnamed/part_002, lines 127-143): throws
`singularity_already_destroyed` when the pointer is null, otherwise deletes
the instance and nulls the pointer.  Note that `get_enabled` is NOT touched
by destroy in the source. -/
def destroy {T : Type} (s : SState T) : Except SingErr (SState T) :=
  if s.ptr.isSome then .ok ⟨s.get_enabled, none⟩
  else .error .already_destroyed

/-- `singularity::get()` (src/unnamed/part_002, lines 145-168; named
`get_global` in the second copy): first throws
`singularity_no_global_access` when `get_enabled == false`, then throws
`singularity_not_created` when the pointer is null, otherwise returns the
held instance by reference.  The check order matches the source. -/
def get {T : Type} (s : SState T) : Except SingErr T :=
  if s.get_enabled = false then .error .no_global_access
  else
    match s.ptr with
    | none => .error .not_created
    | some x => .ok x

/-- Destructor-invocation count of `singularity::destroy()`
(src/unnamed/part_002, lines 127-143), translated statement by statement:
`delete ptr.get()` runs the managed object's destructor once and leaves the
`unique_ptr` still holding the (now dangling) pointer; `ptr.reset()` then
deletes the held pointer — the same object — whenever it is non-null, which
is a second destructor invocation on the same object.  The scoped_ptr
variants (src/unnamed/part_000 lines 141-157, src/unnamed/part_004 lines
148-163) have the identical two statements. -/
def destroyDtorCalls {T : Type} (s : SState T) :
    Except SingErr (Nat × SState T) :=
  match s.ptr with
  | none => .error .already_destroyed
  | some _ =>
      let callsFromDelete := 1
      let ptrHeldAtReset : Option T := s.ptr
      let callsFromReset := match ptrHeldAtReset with
        | some _ => 1
        | none => 0
      .ok (callsFromDelete + callsFromReset, ⟨s.get_enabled, none⟩)

/-- Operations a caller can issue against the cpp11 controller for a type T. -/
inductive Op (T : Type) where
  | createOp (x : T)
  | createGOp (x : T)
  | destroyOp
  | getOp
deriving DecidableEq

/-- Effect of one operation on the per-type state.  A throwing operation
leaves the state unchanged: every throw in the source happens before any
mutation of `get_enabled` or `ptr`. -/
def step {T : Type} (s : SState T) (op : Op T) : SState T :=
  match op with
  | .createOp x =>
      match create x s with
      | .ok (_, s') => s'
      | .error _ => s
  | .createGOp x =>
      match create_enable_get x s with
      | .ok (_, s') => s'
      | .error _ => s
  | .destroyOp =>
      match destroy s with
      | .ok s' => s'
      | .error _ => s
  | .getOp => s

/-- Run a sequence of operations from a given state. -/
def runFrom {T : Type} (s : SState T) (ops : List (Op T)) : SState T :=
  ops.foldl step s

/-- Run a sequence of operations from the zero-initialized state; the
reachable states of type T are exactly the values of `run`. -/
def run {T : Type} (ops : List (Op T)) : SState T :=
  runFrom (init T) ops

/-- Results of a burst of `create` calls executed one after another (the
`multi_threaded` policy's mutex serializes concurrent callers, so any
concurrent burst executes as some such sequence).  A failing create leaves
the state unchanged, exactly as in `step`. -/
def createResults {T : Type} (s : SState T) : List T → List (Except SingErr T)
  | [] => []
  | x :: rest =>
      match create x s with
      | .ok (r, s') => .ok r :: createResults s' rest
      | .error e => .error e :: createResults s rest

/-- Boolean success test for results of the error-reporting operations. -/
def isOkE {T : Type} : Except SingErr T → Bool
  | .ok _ => true
  | .error _ => false

theorem create_live {T : Type} (s : SState T) (x : T)
    (h : s.ptr.isSome = true) : create x s = .error .already_created := by
  simp [create, h]

theorem create_enable_get_live {T : Type} (s : SState T) (x : T)
    (h : s.ptr.isSome = true) :
    create_enable_get x s = .error .already_created := by
  simp [create_enable_get, h]

/-- While an instance is held, every operation other than `destroy` leaves
the per-type state untouched: both create variants throw before mutating and
`get` never mutates. -/
theorem step_frozen {T : Type} (s : SState T) (op : Op T)
    (h : s.ptr.isSome = true) (hnd : op ≠ Op.destroyOp) : step s op = s := by
  cases op with
  | createOp x => simp [step, create_live s x h]
  | createGOp x => simp [step, create_enable_get_live s x h]
  | destroyOp => exact absurd rfl hnd
  | getOp => rfl

theorem runFrom_frozen {T : Type} (ops : List (Op T)) :
    ∀ s : SState T, s.ptr.isSome = true →
      (∀ op ∈ ops, op ≠ Op.destroyOp) → runFrom s ops = s := by
  induction ops with
  | nil => intro s _ _; rfl
  | cons op rest ih =>
      intro s hs hnd
      have hop : step s op = s :=
        step_frozen s op hs (hnd op (List.mem_cons_self op rest))
      show runFrom (step s op) rest = s
      rw [hop]
      exact ih s hs (fun o ho => hnd o (List.mem_cons_of_mem op ho))

/-- The flag-safety property `get_enabled = true → instance held` is
preserved by every operation except `destroy`. -/
theorem flag_step {T : Type} (s : SState T) (op : Op T)
    (h : s.get_enabled = true → s.ptr.isSome = true)
    (hnd : op ≠ Op.destroyOp) :
    (step s op).get_enabled = true → (step s op).ptr.isSome = true := by
  cases op with
  | createOp x =>
      cases hp : s.ptr.isSome with
      | true => rw [step_frozen s _ hp hnd]; exact h
      | false =>
          have : step s (Op.createOp x) = ⟨false, some x⟩ := by
            simp [step, create, hp]
          rw [this]
          intro _
          rfl
  | createGOp x =>
      cases hp : s.ptr.isSome with
      | true => rw [step_frozen s _ hp hnd]; exact h
      | false =>
          have : step s (Op.createGOp x) = ⟨true, some x⟩ := by
            simp [step, create_enable_get, hp]
          rw [this]
          intro _
          rfl
  | destroyOp => exact absurd rfl hnd
  | getOp => exact h

theorem flag_foldl {T : Type} (ops : List (Op T)) :
    ∀ s : SState T, (s.get_enabled = true → s.ptr.isSome = true) →
      (∀ op ∈ ops, op ≠ Op.destroyOp) →
      ((ops.foldl step s).get_enabled = true →
        (ops.foldl step s).ptr.isSome = true) := by
  induction ops with
  | nil => intro s hs _; exact hs
  | cons op rest ih =>
      intro s hs hnd
      exact ih (step s op)
        (flag_step s op hs (hnd op (List.mem_cons_self op rest)))
        (fun o ho => hnd o (List.mem_cons_of_mem op ho))

/-- Once an instance is held, a whole burst of further `create` calls fails
uniformly with `already_created` and never changes the state. -/
theorem createResults_live {T : Type} (xs : List T) :
    ∀ s : SState T, s.ptr.isSome = true →
      createResults s xs =
        xs.map (fun _ => (Except.error SingErr.already_created :
          Except SingErr T)) := by
  induction xs with
  | nil => intro s _; rfl
  | cons x rest ih =>
      intro s hs
      simp only [createResults, create_live s x hs, List.map_cons]
      exact congrArg _ (ih s hs)

theorem countP_const_err_ok {T : Type} (l : List T) :
    ((l.map fun _ => (Except.error SingErr.already_created :
      Except SingErr T)).countP fun r => isOkE r) = 0 := by
  induction l with
  | nil => rfl
  | cons a l ih =>
      rw [List.map_cons, List.countP_cons, ih]
      rfl

theorem countP_const_err_err {T : Type} (l : List T) :
    ((l.map fun _ => (Except.error SingErr.already_created :
      Except SingErr T)).countP fun r => ! isOkE r) = l.length := by
  induction l with
  | nil => rfl
  | cons a l ih =>
      rw [List.map_cons, List.countP_cons, ih]
      rfl

end Cpp11

namespace Hpp

/-- Per-type static state of the `singularity.hpp` / `singularity_explicit.hpp`
family.  `singularity_state<T>::created` depends only on T
(src/singularity.hpp, lines 127-132), while
`singularity_instance<T, M>::instance_ptr` depends on both T and the
threading policy M (lines 137-145), because `M<T>::ptr_type` differs
(`T *` vs `T * volatile`).  `P` is the type of threading-policy
instantiations; each policy has its own pointer slot, all NULL initially. -/
structure HState (P T : Type) where
  created : Bool
  instance_ptr : P → Option T

/-- Zero-initialized state: `created = false`, every policy's
`instance_ptr = NULL`. -/
def init (P T : Type) : HState P T := ⟨false, fun _ => none⟩

/-- One of the generated `singularity<T, M, G>::create(...)` overloads
(src/singularity.hpp, lines 191-207): `detect_already_created()` throws
`singularity_already_created` when the shared `created` flag is set (lines
240-250), before any mutation; otherwise the policy-M pointer is set to the
new instance and `created` becomes true.  Every generated overload has this
same body. -/
def create {P T : Type} [DecidableEq P] (m : P) (x : T) (s : HState P T) :
    Except SingErr (T × HState P T) :=
  if s.created then .error .already_created
  else
    .ok (x, ⟨true, fun p => if p = m then some x else s.instance_ptr p⟩)

/-- `singularity<T, M, G>::destroy()` (src/singularity.hpp, lines 209-230):
throws `singularity_already_destroyed` when `created != true`; then throws
`singularity_destroy_on_incorrect_threading` when policy M's own
`instance_ptr` is NULL (the instance was created through a different
policy); otherwise deletes the instance, nulls the pointer and clears
`created`.  Both throws happen before any mutation. -/
def destroy {P T : Type} [DecidableEq P] (m : P) (s : HState P T) :
    Except SingErr (HState P T) :=
  if s.created then
    match s.instance_ptr m with
    | none => .error .destroy_on_incorrect_threading
    | some _ =>
        .ok ⟨false, fun p => if p = m then none else s.instance_ptr p⟩
  else .error .already_destroyed

/-- `singularity_global_access<T, M, global_access>::get()`
(src/singularity.hpp, lines 154-169), reached through
`singularity<T, M, G>::get()`: throws `singularity_not_created` when policy
M's `instance_ptr` is NULL, otherwise returns the instance by reference.
With the `local_access` policy the call does not compile at all, so only the
`global_access` specialization is modelled. -/
def get {P T : Type} (m : P) (s : HState P T) : Except SingErr T :=
  match s.instance_ptr m with
  | none => .error .not_created
  | some x => .ok x

/-- Operations against type T, each indexed by the threading-policy
instantiation `m : P` through which the caller issues it. -/
inductive HOp (P T : Type) where
  | createOp (m : P) (x : T)
  | destroyOp (m : P)
  | getOp (m : P)

/-- Effect of one operation on the per-type state; a throwing operation
leaves the state unchanged (each throw precedes every mutation). -/
def step {P T : Type} [DecidableEq P] (s : HState P T) (op : HOp P T) :
    HState P T :=
  match op with
  | .createOp m x =>
      match create m x s with
      | .ok (_, s') => s'
      | .error _ => s
  | .destroyOp m =>
      match destroy m s with
      | .ok s' => s'
      | .error _ => s
  | .getOp _ => s

/-- Run a sequence of operations from the zero-initialized state. -/
def run {P T : Type} [DecidableEq P] (ops : List (HOp P T)) : HState P T :=
  ops.foldl step (init P T)

/-- Invariant of the multi-policy state: when `created` is clear no policy
holds an instance, and at most one policy slot is ever occupied (so at most
one live instance of T exists process-wide). -/
def Inv {P T : Type} (s : HState P T) : Prop :=
  (s.created = false → ∀ p, s.instance_ptr p = none) ∧
  (∀ p q, (s.instance_ptr p).isSome → (s.instance_ptr q).isSome → p = q)

theorem inv_init (P T : Type) : Inv (init P T) := by
  constructor
  · intro _ p
    rfl
  · intro p q hp _
    simp [init] at hp

theorem step_create_fail {P T : Type} [DecidableEq P] (s : HState P T)
    (m : P) (x : T) (h : s.created = true) :
    step s (HOp.createOp m x) = s := by
  simp [step, create, h]

theorem step_create_ok {P T : Type} [DecidableEq P] (s : HState P T)
    (m : P) (x : T) (h : s.created = false) :
    step s (HOp.createOp m x) =
      ⟨true, fun p => if p = m then some x else s.instance_ptr p⟩ := by
  simp [step, create, h]

theorem step_destroy_empty {P T : Type} [DecidableEq P] (s : HState P T)
    (m : P) (h : s.created = false) :
    step s (HOp.destroyOp m) = s := by
  simp [step, destroy, h]

theorem step_destroy_wrong {P T : Type} [DecidableEq P] (s : HState P T)
    (m : P) (h : s.created = true) (hm : s.instance_ptr m = none) :
    step s (HOp.destroyOp m) = s := by
  simp [step, destroy, h, hm]

theorem step_destroy_ok {P T : Type} [DecidableEq P] (s : HState P T)
    (m : P) (x : T) (h : s.created = true) (hm : s.instance_ptr m = some x) :
    step s (HOp.destroyOp m) =
      ⟨false, fun p => if p = m then none else s.instance_ptr p⟩ := by
  simp [step, destroy, h, hm]

theorem inv_step {P T : Type} [DecidableEq P] (s : HState P T) (op : HOp P T)
    (h : Inv s) : Inv (step s op) := by
  obtain ⟨h1, h2⟩ := h
  cases op with
  | createOp m x =>
      cases hc : s.created with
      | true =>
          rw [step_create_fail s m x hc]
          exact ⟨h1, h2⟩
      | false =>
          rw [step_create_ok s m x hc]
          constructor
          · intro hfalse
            simp at hfalse
          · intro p q hp hq
            by_cases hpm : p = m
            · by_cases hqm : q = m
              · rw [hpm, hqm]
              · simp only [hqm, if_false] at hq
                rw [h1 hc q] at hq
                simp at hq
            · simp only [hpm, if_false] at hp
              rw [h1 hc p] at hp
              simp at hp
  | destroyOp m =>
      cases hc : s.created with
      | false =>
          rw [step_destroy_empty s m hc]
          exact ⟨h1, h2⟩
      | true =>
          cases hm : s.instance_ptr m with
          | none =>
              rw [step_destroy_wrong s m hc hm]
              exact ⟨h1, h2⟩
          | some x =>
              rw [step_destroy_ok s m x hc hm]
              constructor
              · intro _ p
                by_cases hpm : p = m
                · simp [hpm]
                · simp only [hpm, if_false]
                  cases hp : s.instance_ptr p with
                  | none => rfl
                  | some y =>
                      exfalso
                      apply hpm
                      exact h2 p m (by simp [hp]) (by simp [hm])
              · intro p q hp hq
                by_cases hpm : p = m
                · simp [hpm] at hp
                · simp only [hpm, if_false] at hp
                  by_cases hqm : q = m
                  · simp [hqm] at hq
                  · simp only [hqm, if_false] at hq
                    exact h2 p q hp hq
  | getOp m => exact ⟨h1, h2⟩

theorem inv_foldl {P T : Type} [DecidableEq P] (ops : List (HOp P T)) :
    ∀ s : HState P T, Inv s → Inv (ops.foldl step s) := by
  induction ops with
  | nil => intro s hs; exact hs
  | cons op rest ih =>
      intro s hs
      exact ih (step s op) (inv_step s op hs)

/-- Every reachable state of the preprocessor-variant model satisfies the
uniqueness invariant. -/
theorem inv_run {P T : Type} [DecidableEq P] (ops : List (HOp P T)) :
    Inv (run ops) :=
  inv_foldl ops (init P T) (inv_init P T)

/-- In a state satisfying the invariant, a policy slot holding an instance
forces the shared `created` flag. -/
theorem created_of_isSome {P T : Type} (s : HState P T) (h : Inv s) (p : P)
    (hp : (s.instance_ptr p).isSome) : s.created = true := by
  cases hc : s.created with
  | true => rfl
  | false =>
      rw [h.1 hc p] at hp
      simp at hp

end Hpp

/-- C1: For every managed type T and every argument list, if the state is
Live then every create variant (`create`, `create_enable_get` /
`create_global`, and every generated create overload — all overloads share
the modelled body) fails with AlreadyCreated and performs no state mutation:
the held instance, the created flag, and the get_enabled flag are all
unchanged by the failed call.  Stated for both semantic families: the cpp11
variant (Live means the unique pointer is non-null) and the preprocessor
variant (Live means the shared `created` flag is set). -/
theorem claim_C1 (T P : Type) [DecidableEq P] (y z : T) (m : P)
    (s : Cpp11.SState T) (hs : Hpp.HState P T)
    (h1 : s.ptr.isSome = true) (h2 : hs.created = true) :
    Cpp11.create y s = .error .already_created ∧
    Cpp11.create_enable_get y s = .error .already_created ∧
    Cpp11.step s (Cpp11.Op.createOp y) = s ∧
    Cpp11.step s (Cpp11.Op.createGOp y) = s ∧
    Hpp.create m z hs = .error .already_created ∧
    Hpp.step hs (Hpp.HOp.createOp m z) = hs := by
  refine ⟨Cpp11.create_live s y h1, Cpp11.create_enable_get_live s y h1,
    Cpp11.step_frozen s _ h1 (by simp), Cpp11.step_frozen s _ h1 (by simp),
    ?_, Hpp.step_create_fail hs m z h2⟩
  simp [Hpp.create, h2]

/-- Witness for C1 at T = Nat, P = Bool, on concrete Live states. -/
theorem claim_C1_witness :
    Cpp11.create 3 (⟨false, some 5⟩ : Cpp11.SState Nat) =
      .error .already_created ∧
    Cpp11.create_enable_get 3 (⟨false, some 5⟩ : Cpp11.SState Nat) =
      .error .already_created ∧
    Cpp11.step (⟨false, some 5⟩ : Cpp11.SState Nat) (Cpp11.Op.createOp 3) =
      ⟨false, some 5⟩ ∧
    Cpp11.step (⟨false, some 5⟩ : Cpp11.SState Nat) (Cpp11.Op.createGOp 3) =
      ⟨false, some 5⟩ ∧
    Hpp.create true 4 (⟨true, fun _ => some 4⟩ : Hpp.HState Bool Nat) =
      .error .already_created ∧
    Hpp.step (⟨true, fun _ => some 4⟩ : Hpp.HState Bool Nat)
      (Hpp.HOp.createOp true 4) = ⟨true, fun _ => some 4⟩ :=
  claim_C1 Nat Bool 3 4 true ⟨false, some 5⟩ ⟨true, fun _ => some 4⟩ rfl rfl

/-- C2 counterexample: the state reached by `create_enable_get; destroy` has
`get_enabled = true` while the slot is empty, because `destroy` never resets
the flag — so invariant I2 as claimed fails at a reachable operation
boundary. -/
theorem claim_C2_counterexample :
    (Cpp11.run [Cpp11.Op.createGOp (0 : Nat),
      Cpp11.Op.destroyOp]).get_enabled = true ∧
    (Cpp11.run [Cpp11.Op.createGOp (0 : Nat), Cpp11.Op.destroyOp]).ptr =
      none := by
  constructor <;> rfl

/-- C2 amended: `destroy` leaves `get_enabled` unchanged, so I2 fails once a
global-enabled instance is destroyed.  What does hold at every operation
boundary: for every destroy-free operation sequence, `get_enabled = true`
implies an instance is held; and in any state with an empty slot, `get`
fails with some error rather than yielding an instance. -/
theorem claim_C2 (T : Type) (ops : List (Cpp11.Op T))
    (hnd : ∀ op ∈ ops, op ≠ Cpp11.Op.destroyOp) :
    ((Cpp11.run ops).get_enabled = true →
      (Cpp11.run ops).ptr.isSome = true) ∧
    (∀ s : Cpp11.SState T, s.ptr = none → ∃ e, Cpp11.get s = .error e) := by
  constructor
  · exact Cpp11.flag_foldl ops (Cpp11.init T) (fun h => nomatch h) hnd
  · intro s hp
    cases hg : s.get_enabled with
    | false => exact ⟨.no_global_access, by simp [Cpp11.get, hg]⟩
    | true => exact ⟨.not_created, by simp [Cpp11.get, hg, hp]⟩

/-- Witness for C2 on the destroy-free sequence `[create_enable_get 3]`. -/
theorem claim_C2_witness :
    (Cpp11.run [Cpp11.Op.createGOp (3 : Nat)]).ptr.isSome = true :=
  (claim_C2 Nat [Cpp11.Op.createGOp 3] (by decide)).1 rfl

/-- C3 counterexample: from the reachable Live state left by
`create_enable_get 0`, `destroy` succeeds but the resulting state still has
`get_enabled = true`, refuting "resets the get_enabled flag to false". -/
theorem claim_C3_counterexample :
    (Cpp11.run [Cpp11.Op.createGOp (0 : Nat)]).ptr.isSome = true ∧
    Cpp11.destroy (Cpp11.run [Cpp11.Op.createGOp (0 : Nat)]) =
      .ok ⟨true, none⟩ := by
  constructor <;> rfl

/-- C3 amended: when the state is Live, `destroy()` destructs the held
instance and transitions the slot to Empty, but leaves `get_enabled`
unchanged (the flag is set only by the create variants); in particular
after a destroy that follows a plain `create`, `get_enabled` is false only
because `create` had already cleared it. -/
theorem claim_C3 (T : Type) (s : Cpp11.SState T) (h : s.ptr.isSome = true) :
    Cpp11.destroy s = .ok ⟨s.get_enabled, none⟩ := by
  simp [Cpp11.destroy, h]

/-- Witness for C3 on a concrete Live state with the flag set. -/
theorem claim_C3_witness :
    Cpp11.destroy (⟨true, some (7 : Nat)⟩ : Cpp11.SState Nat) =
      .ok ⟨true, none⟩ :=
  claim_C3 Nat ⟨true, some 7⟩ rfl

/-- C4: evaluation of the bug.  On a Live slot, `destroy()` in the
unique_ptr/scoped_ptr variants runs the managed instance's destructor twice,
not once: `delete ptr.get()` destructs it, then `ptr.reset()` deletes the
same still-held pointer again (a double delete).  The claim requires exactly
one destructor invocation. -/
theorem claim_C4 :
    Cpp11.destroyDtorCalls (⟨false, some (0 : Nat)⟩ : Cpp11.SState Nat) =
      .ok (2, ⟨false, none⟩) ∧ (2 : Nat) ≠ 1 := by
  exact ⟨rfl, by decide⟩

/-- C5 counterexample: the cpp11 variant offers `get` at runtime, yet `get`
on the initial Empty state (before any create) fails with
`singularity_no_global_access` (AccessNotEnabled), not with
`singularity_not_created`, because the source checks `get_enabled` before
the pointer. -/
theorem claim_C5_counterexample :
    Cpp11.get (Cpp11.init Nat) = .error .no_global_access ∧
    Cpp11.get (Cpp11.init Nat) ≠ .error .not_created := by
  refine ⟨rfl, fun h => ?_⟩
  rw [show Cpp11.get (Cpp11.init Nat) =
    .error .no_global_access from rfl] at h
  exact nomatch h

/-- C5 amended: `get` on an Empty slot fails with NotCreated in the variants
that check the instance pointer (the static access-policy family), and in
the dynamic cpp11 variant whenever `get_enabled` is true (e.g. after
destroying a global-enabled instance); but in the dynamic variant with
`get_enabled` false — in particular before any create has ever been called —
it fails with AccessNotEnabled (`singularity_no_global_access`) instead. -/
theorem claim_C5 (P T : Type) (m : P)
    (hs : Hpp.HState P T) (s1 s2 : Cpp11.SState T)
    (hh : hs.instance_ptr m = none)
    (h1p : s1.ptr = none) (h1g : s1.get_enabled = true)
    (_h2p : s2.ptr = none) (h2g : s2.get_enabled = false) :
    Hpp.get m hs = .error .not_created ∧
    Cpp11.get s1 = .error .not_created ∧
    Cpp11.get s2 = .error .no_global_access := by
  refine ⟨?_, ?_, ?_⟩
  · simp [Hpp.get, hh]
  · simp [Cpp11.get, h1g, h1p]
  · simp [Cpp11.get, h2g]

/-- Witness for C5 on concrete Empty states of both families. -/
theorem claim_C5_witness :
    Hpp.get true (Hpp.init Bool Nat) = .error .not_created ∧
    Cpp11.get (⟨true, none⟩ : Cpp11.SState Nat) = .error .not_created ∧
    Cpp11.get (⟨false, none⟩ : Cpp11.SState Nat) =
      .error .no_global_access :=
  claim_C5 Bool Nat true (Hpp.init Bool Nat) ⟨true, none⟩ ⟨false, none⟩
    rfl rfl rfl rfl rfl

/-- C6: invariant I3.  In every state reachable by any interleaving of
operations issued through any number of distinct policy instantiations over
the same type T, at most one live instance of T exists (any two occupied
policy slots coincide); and a create through a second instantiation while an
instance created through a first is still live fails with AlreadyCreated
and mutates nothing — the shared per-type `created` flag guards all
instantiations. -/
theorem claim_C6 (P T : Type) [DecidableEq P] (ops : List (Hpp.HOp P T))
    (p q m2 : P) (x : T)
    (hp : ((Hpp.run ops).instance_ptr p).isSome = true)
    (hq : ((Hpp.run ops).instance_ptr q).isSome = true) :
    p = q ∧
    Hpp.create m2 x (Hpp.run ops) = .error .already_created ∧
    Hpp.step (Hpp.run ops) (Hpp.HOp.createOp m2 x) = Hpp.run ops := by
  have hinv := Hpp.inv_run ops
  have hcreated := Hpp.created_of_isSome (Hpp.run ops) hinv p hp
  refine ⟨hinv.2 p q hp hq, ?_, Hpp.step_create_fail _ m2 x hcreated⟩
  simp [Hpp.create, hcreated]

/-- Witness for C6: after a create through policy `true`, a create through
policy `false` fails with AlreadyCreated and leaves the state unchanged. -/
theorem claim_C6_witness :
    true = true ∧
    Hpp.create false (7 : Nat) (Hpp.run [Hpp.HOp.createOp true (5 : Nat)]) =
      .error .already_created ∧
    Hpp.step (Hpp.run [Hpp.HOp.createOp true (5 : Nat)])
      (Hpp.HOp.createOp false 7) =
      Hpp.run [Hpp.HOp.createOp true (5 : Nat)] :=
  claim_C6 Bool Nat [Hpp.HOp.createOp true 5] true true false 7 rfl rfl

/-- C7: after a successful `create_enable_get`, every subsequent `get`
before the matching destroy (i.e. after any destroy-free sequence of further
operations) returns the very instance the create call returned. -/
theorem claim_C7 (T : Type) (x r : T) (s s1 : Cpp11.SState T)
    (ops : List (Cpp11.Op T))
    (hc : Cpp11.create_enable_get x s = .ok (r, s1))
    (hnd : ∀ op ∈ ops, op ≠ Cpp11.Op.destroyOp) :
    Cpp11.get (Cpp11.runFrom s1 ops) = .ok r := by
  have hps : s.ptr.isSome = false := by
    cases hp : s.ptr.isSome with
    | false => rfl
    | true =>
        rw [Cpp11.create_enable_get_live s x hp] at hc
        exact absurd hc (by simp)
  have hc' : r = x ∧ s1 = (⟨true, some x⟩ : Cpp11.SState T) := by
    simp [Cpp11.create_enable_get, hps] at hc
    exact ⟨hc.1.symm, hc.2.symm⟩
  obtain ⟨hr, hs1⟩ := hc'
  rw [hr, hs1]
  rw [Cpp11.runFrom_frozen ops ⟨true, some x⟩ rfl hnd]
  rfl

/-- Witness for C7: after `create_enable_get 7` from the initial state, a
`get` following a failed create and a read still returns 7. -/
theorem claim_C7_witness :
    Cpp11.get (Cpp11.runFrom (⟨true, some (7 : Nat)⟩ : Cpp11.SState Nat)
      [Cpp11.Op.getOp, Cpp11.Op.createOp 3]) = .ok 7 :=
  claim_C7 Nat 7 7 (Cpp11.init Nat) ⟨true, some 7⟩
    [Cpp11.Op.getOp, Cpp11.Op.createOp 3] rfl (by decide)

/-- C8: the sequence `create; destroy; create; destroy` from the initial
empty slot succeeds at every step; the state after the first destroy is
identical to the initial state, so the second create (same argument) is the
very same call on the very same state as the first, and the final state is
again the initial one. -/
theorem claim_C8 (T : Type) (x : T) :
    Cpp11.create x (Cpp11.init T) = .ok (x, ⟨false, some x⟩) ∧
    Cpp11.destroy (⟨false, some x⟩ : Cpp11.SState T) =
      .ok (Cpp11.init T) ∧
    Cpp11.run [Cpp11.Op.createOp x, Cpp11.Op.destroyOp] = Cpp11.init T ∧
    Cpp11.create x (Cpp11.run [Cpp11.Op.createOp x, Cpp11.Op.destroyOp]) =
      Cpp11.create x (Cpp11.init T) ∧
    Cpp11.run [Cpp11.Op.createOp x, Cpp11.Op.destroyOp,
      Cpp11.Op.createOp x, Cpp11.Op.destroyOp] = Cpp11.init T := by
  refine ⟨?_, ?_, ?_, ?_, ?_⟩ <;> rfl

/-- C9: in the `singularity.hpp` family, destroying through a threading
policy different from the one used by the matching create fails with
`singularity_destroy_on_incorrect_threading` and performs no mutation, and a
subsequent destroy through the creating policy still succeeds. -/
theorem claim_C9 (P T : Type) [DecidableEq P] (ops : List (Hpp.HOp P T))
    (m1 m2 : P) (x : T)
    (h1 : (Hpp.run ops).instance_ptr m1 = some x)
    (h2 : m2 ≠ m1) :
    Hpp.destroy m2 (Hpp.run ops) =
      .error .destroy_on_incorrect_threading ∧
    Hpp.step (Hpp.run ops) (Hpp.HOp.destroyOp m2) = Hpp.run ops ∧
    Hpp.destroy m1 (Hpp.run ops) =
      .ok ⟨false, fun p => if p = m1 then none
        else (Hpp.run ops).instance_ptr p⟩ := by
  have hinv := Hpp.inv_run ops
  have hcreated : (Hpp.run ops).created = true :=
    Hpp.created_of_isSome _ hinv m1 (by simp [h1])
  have hm2 : (Hpp.run ops).instance_ptr m2 = none := by
    cases hm : (Hpp.run ops).instance_ptr m2 with
    | none => rfl
    | some y =>
        exact absurd (hinv.2 m2 m1 (by simp [hm]) (by simp [h1])) h2
  refine ⟨?_, Hpp.step_destroy_wrong _ m2 hcreated hm2, ?_⟩
  · simp [Hpp.destroy, hcreated, hm2]
  · simp [Hpp.destroy, hcreated, h1]

/-- Witness for C9: created through policy `true`, destroy through `false`
fails with the wrong-threading error and mutates nothing; destroy through
`true` then succeeds. -/
theorem claim_C9_witness :
    Hpp.destroy false (Hpp.run [Hpp.HOp.createOp true (5 : Nat)]) =
      .error .destroy_on_incorrect_threading ∧
    Hpp.step (Hpp.run [Hpp.HOp.createOp true (5 : Nat)])
      (Hpp.HOp.destroyOp false) =
      Hpp.run [Hpp.HOp.createOp true (5 : Nat)] ∧
    Hpp.destroy true (Hpp.run [Hpp.HOp.createOp true (5 : Nat)]) =
      .ok ⟨false, fun p => if p = true then none
        else (Hpp.run [Hpp.HOp.createOp true (5 : Nat)]).instance_ptr p⟩ :=
  claim_C9 Bool Nat [Hpp.HOp.createOp true 5] true false 5 rfl (by decide)

/-- C10: under the mutually-exclusive policy each operation runs atomically
inside the per-type mutex, so any N concurrent `create` calls against an
Empty slot execute as some serialization; for every such serialized burst of
N = 1 + rest.length creates, exactly the first succeeds and the other N − 1
all fail with AlreadyCreated. -/
theorem claim_C10 (T : Type) (x : T) (rest : List T) :
    Cpp11.createResults (Cpp11.init T) (x :: rest) =
      .ok x :: rest.map (fun _ => .error .already_created) ∧
    (Cpp11.createResults (Cpp11.init T) (x :: rest)).countP
      (fun r => Cpp11.isOkE r) = 1 ∧
    (Cpp11.createResults (Cpp11.init T) (x :: rest)).countP
      (fun r => ! Cpp11.isOkE r) = rest.length := by
  have hfirst : Cpp11.createResults (Cpp11.init T) (x :: rest) =
      .ok x :: rest.map (fun _ =>
        (Except.error SingErr.already_created : Except SingErr T)) := by
    show (match Cpp11.create x (Cpp11.init T) with
      | .ok (r, s') => Except.ok r :: Cpp11.createResults s' rest
      | .error e => .error e :: Cpp11.createResults (Cpp11.init T) rest) = _
    have hcr : Cpp11.create x (Cpp11.init T) = .ok (x, ⟨false, some x⟩) :=
      rfl
    rw [hcr]
    exact congrArg _ (Cpp11.createResults_live rest ⟨false, some x⟩ rfl)
  refine ⟨hfirst, ?_, ?_⟩
  · rw [hfirst, List.countP_cons]
    rw [Cpp11.countP_const_err_ok rest]
    rfl
  · rw [hfirst, List.countP_cons]
    rw [Cpp11.countP_const_err_err rest]
    rfl

end Singularity
